import Mathlib

/-!
Shallow embedding of the cloud-file-system ML load-prediction service:
`ml-service/app.py` (serving) and `ml-service/generate_data.py` (synthetic
training-data generation).  Python floats are idealised as rationals; the
opaque fitted regressor, the fitted scaler and ISO-timestamp parsing are
abstracted as function parameters, matching the spec's treatment of them as
external collaborators; a Python exception inside one of those calls is an
`Except.error`.
-/

namespace CloudFS

/-- Rounding of Python `round(x, d)` (round half to even), idealised over ℚ:
the integer nearest to `x`, ties going to the even integer. -/
def roundHalfEven (x : ℚ) : ℤ :=
  let f : ℤ := ⌊x⌋
  let r : ℚ := x - f
  if r < 1/2 then f
  else if 1/2 < r then f + 1
  else if f % 2 = 0 then f else f + 1

/-- Rounding to `d` decimal digits, as in `round(x, d)`. -/
def roundTo (d : ℕ) (x : ℚ) : ℚ :=
  (roundHalfEven (x * 10 ^ d) : ℚ) / 10 ^ d

/-- Rounding to two decimals, `round(x, 2)`. -/
def round2 (x : ℚ) : ℚ := roundTo 2 x

/-- Calendar data of a parsed timestamp (a Python `datetime`): exactly the
fields `extract_features` reads.  `weekday` follows Python: Monday = 0. -/
structure DT where
  hour : ℕ
  weekday : ℕ
  month : ℕ
deriving Repr, DecidableEq

/-- Embedding of `extract_features` (app.py lines 74-113): the fixed-order
feature vector.  `historical_loads[-1] if len(historical_loads) >= 1 else
current_load` is the `getLast?` match; `np.mean` of a nonempty list is
sum / length. -/
def extract_features (dt : DT) (current_load : ℚ) (historical_loads : List ℚ) : List ℚ :=
  let hour_of_day := dt.hour
  let day_of_week := dt.weekday
  let month := dt.month
  let is_weekend : ℚ := if day_of_week ≥ 5 then 1 else 0
  let is_business_hours : ℚ := if 9 ≤ hour_of_day ∧ hour_of_day < 17 then 1 else 0
  let load_1h_ago : ℚ :=
    match historical_loads.getLast? with
    | some x => x
    | none => current_load
  -- Approximation in the source: no 24h history is available in the request.
  let load_24h_ago : ℚ := current_load
  let avg_load_last_7d : ℚ :=
    if historical_loads = [] then current_load
    else historical_loads.sum / historical_loads.length
  [(hour_of_day : ℚ), (day_of_week : ℚ), (month : ℚ),
    is_weekend, is_business_hours, load_1h_ago, load_24h_ago, avg_load_last_7d]

/-- The `metrics` object of `model_metadata.json` as read by app.py. -/
structure Metadata where
  rmse : ℚ
  mae : ℚ
  r2 : ℚ
deriving Repr, DecidableEq

/-- Embedding of `calculate_confidence_interval` (app.py lines 115-137).
With no metadata loaded the source falls back to `rmse = 50`. -/
def calculate_confidence_interval (model_metadata : Option Metadata)
    (prediction confidence : ℚ) : ℚ × ℚ :=
  let rmse : ℚ :=
    match model_metadata with
    | some md => md.rmse
    | none => 50
  let margin : ℚ := if confidence ≥ 0.95 then 2 * rmse else 1.5 * rmse
  (max 0 (prediction - margin), prediction + margin)

/-- An opaque fitted regressor (`model.predict` on a single row): maps a
feature row to a scalar forecast, or fails like a raised exception. -/
def Regressor : Type := List ℚ → Except String ℚ

/-- An opaque fitted scaler (`scaler.transform` on a single row). -/
def Scaler : Type := List ℚ → Except String (List ℚ)

/-- The module-level mutable globals of app.py (lines 28-32). -/
structure ServerState where
  model : Option Regressor
  scaler : Option Scaler
  model_metadata : Option Metadata
  prediction_count : ℕ
  prediction_errors : List ℚ

/-- The globals before `load_model` runs. -/
def initialState : ServerState := ⟨none, none, none, 0, []⟩

/-- The artifact files `load_model` may find on disk. -/
structure Disk where
  model_file : Option Regressor
  scaler_file : Option Scaler
  metadata_file : Option Metadata

/-- Embedding of `load_model` (app.py lines 34-72): the globals are assigned
one at a time; a missing model or scaler raises, the exception is caught and
`False` is returned, leaving whatever was assigned so far; missing metadata
is replaced by zeroed metrics and the load still succeeds. -/
def load_model (d : Disk) : ServerState × Bool :=
  match d.model_file with
  | none => (initialState, false)
  | some m =>
    let s1 : ServerState := { initialState with model := some m }
    match d.scaler_file with
    | none => (s1, false)
    | some sc =>
      let s2 : ServerState := { s1 with scaler := some sc }
      let md : Metadata :=
        match d.metadata_file with
        | some md => md
        | none => ⟨0, 0, 0⟩
      ({ s2 with model_metadata := some md }, true)

/-- Embedding of `health_check` (app.py lines 139-152): the reported status
string together with the `model_loaded` and `scaler_loaded` flags. -/
def health_check (s : ServerState) : String × Bool × Bool :=
  (if s.model.isSome then "healthy" else "unhealthy", s.model.isSome, s.scaler.isSome)

/-- Embedding of the `avg_error` computation in `get_metrics` (app.py
line 165): mean of the rolling error window, 0 when it is empty. -/
def avg_error (errors : List ℚ) : ℚ :=
  if errors = [] then 0 else errors.sum / errors.length

/-- The state-dependent `/metrics` response fields (app.py lines 154-174):
`predictions_served` and the reported, 2-decimal-rounded `avg_error`. -/
def get_metrics (s : ServerState) : ℕ × ℚ :=
  (s.prediction_count, round2 (avg_error s.prediction_errors))

/-- Responses of the `/record_actual` endpoint. -/
inductive RecordResponse where
  | recorded (error : ℚ)
  | clientError (msg : String)
deriving Repr, DecidableEq

/-- Embedding of the FIFO update in `record_actual` (app.py lines 283-288):
append the new error, then keep only the last 1000 entries. -/
def pushError (errors : List ℚ) (e : ℚ) : List ℚ :=
  let es := errors ++ [e]
  if es.length > 1000 then es.drop (es.length - 1000) else es

/-- Embedding of `record_actual` (app.py lines 260-298).  The request fields
are optional, mirroring `data.get(...)` returning `None`. -/
def record_actual (s : ServerState) (predicted actual : Option ℚ) :
    ServerState × RecordResponse :=
  match predicted, actual with
  | some p, some a =>
    let error := |p - a|
    ({ s with prediction_errors := pushError s.prediction_errors error },
      .recorded (round2 error))
  | _, _ => (s, .clientError "Missing predicted_load or actual_load")

/-- A `/predict` request body; `none` marks an absent field. -/
structure PredictRequest where
  current_time : Option String
  current_load : Option ℚ
  historical_loads : Option (List ℚ)

/-- Responses of the `/predict` endpoint: `ok` is the 200 body,
`clientError` a 400, `serverError` a 500 with its error and message parts. -/
inductive PredictResponse where
  | ok (predicted_load confidence_lower confidence_upper model_accuracy : ℚ)
  | clientError (msg : String)
  | serverError (error msg : String)
deriving Repr, DecidableEq

/-- External ISO-timestamp parsing (`datetime.fromisoformat`), abstracted:
either a parsed calendar value or a raised exception. -/
def ParseTime : Type := String → Except String DT

/-- Embedding of `predict` (app.py lines 176-258): model check first, then
field validation in request order, then extraction, scaling and inference;
any exception in that pipeline is caught and returned as a 500, and
`prediction_count` is incremented only after inference has succeeded. -/
def predict (parseTime : ParseTime) (s : ServerState) (req : PredictRequest) :
    ServerState × PredictResponse :=
  match s.model, s.scaler with
  | some m, some sc =>
    (match req.current_time with
     | none => (s, .clientError "Missing required field: current_time")
     | some t =>
       match req.current_load with
       | none => (s, .clientError "Missing required field: current_load")
       | some current_load =>
         match req.historical_loads with
         | none => (s, .clientError "Missing required field: historical_loads")
         | some hist =>
           match parseTime t with
           | .error e => (s, .serverError "Prediction failed" e)
           | .ok dt =>
             match sc (extract_features dt current_load hist) with
             | .error e => (s, .serverError "Prediction failed" e)
             | .ok scaled =>
               match m scaled with
               | .error e => (s, .serverError "Prediction failed" e)
               | .ok predicted_load =>
                 let ci := calculate_confidence_interval s.model_metadata predicted_load 0.95
                 let acc : ℚ :=
                   match s.model_metadata with
                   | some md => roundTo 4 md.r2
                   | none => 0.89
                 ({ s with prediction_count := s.prediction_count + 1 },
                   .ok (round2 predicted_load) (round2 ci.1) (round2 ci.2) acc))
  | _, _ => (s, .serverError "Model not loaded" "Please run train_model.py first")

/-- Random streams behind the two seeded generators of generate_data.py
(lines 22-24): `npDraws k` is the unit draw behind the k-th
`np.random.uniform` call, `pyDraws j` the j-th unit draw of the `random`
module.  Fixing the seeds fixes both streams. -/
structure Rng where
  npDraws : ℕ → ℚ
  pyDraws : ℕ → ℚ

/-- The value of the k-th `np.random.uniform(a, b)` call. -/
def npUniform (r : Rng) (k : ℕ) (a b : ℚ) : ℚ := a + (b - a) * r.npDraws k

/-- Embedding of `generate_base_load` (generate_data.py lines 26-63); every
branch makes exactly one `np.random.uniform` call, indexed `k`.  The
`day_of_week` argument is passed by the source but unused there. -/
def generate_base_load (r : Rng) (k : ℕ) (hour _day_of_week : ℕ)
    (is_weekend is_business_hours : Bool) : ℚ :=
  let base : ℚ :=
    if hour < 6 ∨ hour ≥ 22 then npUniform r k 50 100
    else if hour < 9 then npUniform r k 200 400
    else if is_business_hours then
      (if hour = 12 then npUniform r k 1100 1300 else npUniform r k 500 1000)
    else npUniform r k 150 350
  if is_weekend then base * 0.3 else base

/-- Embedding of `add_noise` (lines 65-68) with `noise_percent = 20`; `k`
indexes its single `np.random.uniform(-20, 20)` call. -/
def add_noise (r : Rng) (k : ℕ) (value : ℚ) : ℚ :=
  value * (1 + npUniform r k (-20) 20 / 100)

/-- Calendar behaviour of the external `datetime` library, abstracted:
timestamps are whole hours on an integer axis, `epochWeekday` is the weekday
of hour 0 (Monday = 0) and `monthOf` the calendar month of an hour. -/
structure Calendar where
  epochWeekday : ℤ
  monthOf : ℤ → ℕ

/-- One stored data point of `generate_training_data` (lines 127-135). -/
structure GenRow where
  timestamp : ℤ
  hour_of_day : ℕ
  day_of_week : ℕ
  month : ℕ
  is_weekend : Bool
  is_business_hours : Bool
  current_load : ℚ
deriving Repr, DecidableEq

/-- Embedding of the generation loop of `generate_training_data` (lines
94-138).  `i` is the loop index (`current_date` is `start + i` hours),
`pyIdx` counts the `random`-module draws consumed so far, and the last
argument is the number of hours still to produce.  Hour `i` consumes np
draws `2*i` (base load) and `2*i + 1` (noise), one python draw for the
spike test and one more for the spike factor when a spike fires;
`months_elapsed` is `(current_date - start_date).days / 30`, whose `days`
field is the loop index integer-divided by 24. -/
def genRows (c : Calendar) (r : Rng) (start : ℤ) : ℕ → ℕ → ℕ → List GenRow
  | _, _, 0 => []
  | i, pyIdx, n + 1 =>
    let t : ℤ := start + i
    let hour : ℕ := (t % 24).toNat
    let day_of_week : ℕ := ((t / 24 + c.epochWeekday) % 7).toNat
    let is_weekend : Bool := decide (day_of_week ≥ 5)
    let is_business_hours : Bool := decide (9 ≤ hour ∧ hour < 17)
    let months_elapsed : ℚ := ((i / 24 : ℕ) : ℚ) / 30
    let growth_factor : ℚ := 1 + 0.05 * months_elapsed
    let base_load := generate_base_load r (2 * i) hour day_of_week is_weekend is_business_hours
    let load1 := base_load * growth_factor
    let load2 := add_noise r (2 * i + 1) load1
    let spike : Bool := decide (r.pyDraws pyIdx < 0.02)
    let load3 := if spike then load2 * (3 + (5 - 3) * r.pyDraws (pyIdx + 1)) else load2
    let pyNext := if spike then pyIdx + 2 else pyIdx + 1
    let load4 := max 0 load3
    { timestamp := t, hour_of_day := hour, day_of_week := day_of_week,
      month := c.monthOf t, is_weekend := is_weekend,
      is_business_hours := is_business_hours, current_load := round2 load4 }
      :: genRows c r start (i + 1) pyNext n

/-- Embedding of the series construction of `generate_training_data` (lines
85-138): `now` is the wall-clock hour at which the run happens
(`datetime.now()`), the start is `30 * months` days = `720 * months` hours
earlier, and `total_hours = 24 * 30 * months` points are produced. -/
def generate_series (c : Calendar) (r : Rng) (now : ℤ) (months : ℕ) : List GenRow :=
  genRows c r (now - 720 * (months : ℤ)) 0 0 (720 * months)

/-- A row of the training output after the lag-feature step (lines 144-152):
the stored load plus the three lag columns; `none` is a pandas NaN. -/
structure LagRow where
  idx : ℕ
  current_load : ℚ
  load_1h_ago : Option ℚ
  load_24h_ago : Option ℚ
  avg_load_last_7d : Option ℚ
deriving Repr, DecidableEq

/-- Embedding of `df['current_load'].shift(1)` at row `i` (line 145). -/
def shift1 (loads : List ℚ) (i : ℕ) : Option ℚ :=
  if i = 0 then none else loads.get? (i - 1)

/-- Embedding of `df['current_load'].shift(24)` at row `i` (line 146). -/
def shift24 (loads : List ℚ) (i : ℕ) : Option ℚ :=
  if i < 24 then none else loads.get? (i - 24)

/-- The loads the window of `shift(1).rolling(window=24*7, min_periods=1)`
sees at row `i` once NaNs are excluded: indices max(0, i-168) to i-1. -/
def trailingWindow (loads : List ℚ) (i : ℕ) : List ℚ :=
  (loads.take i).drop (i - 168)

/-- Embedding of `df['avg_load_last_7d']` (line 149): the rolling mean of
the 1-shifted column with `min_periods=1`; NaN exactly at row 0, where the
window holds no non-NaN observation. -/
def avg7d (loads : List ℚ) (i : ℕ) : Option ℚ :=
  if i = 0 then none
  else some ((trailingWindow loads i).sum / (trailingWindow loads i).length)

/-- The full lag-feature table (lines 144-149) over a current_load column. -/
def lagTable (loads : List ℚ) : List LagRow :=
  (List.range loads.length).map fun i =>
    { idx := i, current_load := loads.getD i 0,
      load_1h_ago := shift1 loads i, load_24h_ago := shift24 loads i,
      avg_load_last_7d := avg7d loads i }

/-- Embedding of `df.dropna()` (line 152): keep the rows whose lag columns
are all non-NaN (no other column can be NaN). -/
def trainingTable (loads : List ℚ) : List LagRow :=
  (lagTable loads).filter fun row =>
    row.load_1h_ago.isSome && row.load_24h_ago.isSome && row.avg_load_last_7d.isSome

/-- Folding a sequence of well-formed `record_actual` calls over the freshly
started server, as in the spec's "after any sequence of record calls". -/
def recordFold (l : List (ℚ × ℚ)) : ServerState :=
  l.foldl (fun s pa => (record_actual s (some pa.1) (some pa.2)).1) initialState

/-- The extraction → scaling → inference pipeline inside the try block of
`predict`, as one fallible computation: it fails exactly when one of the
three steps raises. -/
def inferencePipeline (pt : ParseTime) (sc : Scaler) (m : Regressor)
    (t : String) (current_load : ℚ) (hist : List ℚ) : Except String ℚ := do
  let dt ← pt t
  let scaled ← sc (extract_features dt current_load hist)
  m scaled

/-- A concrete opaque regressor, for instantiating theorems. -/
def demoModel : Regressor := fun _ => .ok 0

/-- A concrete opaque scaler, for instantiating theorems. -/
def demoScaler : Scaler := fun row => .ok row

/-- A parser that rejects every timestamp, modelling
`datetime.fromisoformat` raising. -/
def failingParse : ParseTime := fun _ => .error "bad timestamp"

/-- A fully loaded server state built over the demo artifacts. -/
def demoState : ServerState := ⟨some demoModel, some demoScaler, none, 0, []⟩

/-! Theorems settling the claims. -/

/-- Bind on `Except` propagates an error, by definition. -/
theorem exceptBind_error {α β : Type} (e : String) (f : α → Except String β) :
    (Except.error e >>= f : Except String β) = Except.error e := rfl

/-- Bind on `Except` applies the continuation to a success, by definition. -/
theorem exceptBind_ok {α β : Type} (a : α) (f : α → Except String β) :
    (Except.ok a >>= f : Except String β) = f a := rfl

/-- The error FIFO after a push holds min(previous + 1, 1000) entries. -/
theorem pushError_length (es : List ℚ) (e : ℚ) :
    (pushError es e).length = min (es.length + 1) 1000 := by
  simp only [pushError]
  split <;> simp_all <;> omega

/-- The most recently pushed error is always the last FIFO entry. -/
theorem pushError_getLast (es : List ℚ) (e : ℚ) :
    (pushError es e).getLast? = some e := by
  simp only [pushError]
  split
  · have hk : (es ++ [e]).length - 1000 ≤ es.length := by
      simp only [List.length_append, List.length_singleton]
      omega
    rw [List.drop_append_of_le_length hk]
    exact List.getLast?_concat _
  · exact List.getLast?_concat _

/-- Claim C3: for every prediction and confidence level the interval uses
margin = 2·rmse when confidence ≥ 0.95 and 1.5·rmse otherwise, with rmse the
static metadata value, lower = max(0, prediction − margin),
upper = prediction + margin; and lower ≥ 0 whenever rmse ≥ 0. -/
theorem calculate_confidence_interval_spec (md : Metadata) (p conf : ℚ) :
    (conf ≥ 0.95 →
      calculate_confidence_interval (some md) p conf
        = (max 0 (p - 2 * md.rmse), p + 2 * md.rmse))
    ∧ (conf < 0.95 →
      calculate_confidence_interval (some md) p conf
        = (max 0 (p - 1.5 * md.rmse), p + 1.5 * md.rmse))
    ∧ (0 ≤ md.rmse → 0 ≤ (calculate_confidence_interval (some md) p conf).1) := by
  refine ⟨fun h => ?_, fun h => ?_, fun _ => ?_⟩
  · simp [calculate_confidence_interval, h]
  · simp [calculate_confidence_interval, not_le.mpr h]
  · exact le_max_left 0 _

/-- Witness for C3, at the spec's worked example (rmse = 20, prediction
820, confidence 0.95): the interval is (780, 860). -/
theorem calculate_confidence_interval_spec_witness :
    (0.95 : ℚ) ≥ 0.95
      ∧ calculate_confidence_interval (some ⟨20, 15, 0.89⟩) 820 0.95 = (780, 860) := by
  refine ⟨by norm_num, ?_⟩
  have h := (calculate_confidence_interval_spec ⟨20, 15, 0.89⟩ 820 0.95).1 (by norm_num)
  rw [h]
  norm_num

/-- Counterexample to claim C4 as stated: at prediction 0, rmse 50 ≥ 0 and
confidence 0.95 the margin is 100 but the returned width is
upper − lower = 100 ≠ 2 · margin = 200, because the lower bound is clamped
at 0. -/
theorem confidence_width_counterexample :
    (calculate_confidence_interval (some ⟨50, 0, 0⟩) 0 0.95).2
        - (calculate_confidence_interval (some ⟨50, 0, 0⟩) 0 0.95).1
      ≠ 2 * (2 * (50 : ℚ)) := by
  norm_num [calculate_confidence_interval]

/-- Claim C4 as amended: for every prediction, rmse ≥ 0 and confidence
level, provided prediction ≥ margin (so the max-with-0 clamp is inactive),
the interval satisfies upper − lower = 2 · margin exactly, where margin is
2·rmse for confidence ≥ 0.95 and 1.5·rmse otherwise. -/
theorem confidence_width_eq_two_margin (md : Metadata) (p conf : ℚ)
    (hr : 0 ≤ md.rmse)
    (hp : (if conf ≥ 0.95 then 2 * md.rmse else 1.5 * md.rmse) ≤ p) :
    (calculate_confidence_interval (some md) p conf).2
        - (calculate_confidence_interval (some md) p conf).1
      = 2 * (if conf ≥ 0.95 then 2 * md.rmse else 1.5 * md.rmse) := by
  have hmp : (0 : ℚ) ≤ p - (if conf ≥ 0.95 then 2 * md.rmse else 1.5 * md.rmse) :=
    sub_nonneg.mpr hp
  unfold calculate_confidence_interval
  simp only
  rw [max_eq_right hmp]
  ring

/-- Witness for C4's amended theorem at rmse 20, prediction 820, confidence
0.95: the width is exactly 80. -/
theorem confidence_width_eq_two_margin_witness :
    (calculate_confidence_interval (some ⟨20, 15, 0.89⟩) 820 0.95).2
        - (calculate_confidence_interval (some ⟨20, 15, 0.89⟩) 820 0.95).1
      = 80 := by
  have h := confidence_width_eq_two_margin ⟨20, 15, 0.89⟩ 820 0.95
    (by norm_num) (by norm_num)
  rw [h]
  norm_num

/-- Claim C6: feature extraction is total; with empty history positions 5
(load_1h_ago) and 7 (avg_load_last_7d) both fall back to the current load;
position 6 (load_24h_ago) is always the current load; and with nonempty
history position 5 is the last element and position 7 the arithmetic mean. -/
theorem extract_features_fallback (dt : DT) (load : ℚ) :
    ((extract_features dt load []).get? 5 = some load
      ∧ (extract_features dt load []).get? 7 = some load)
    ∧ (∀ hist : List ℚ, (extract_features dt load hist).get? 6 = some load)
    ∧ (∀ (hist : List ℚ) (x : ℚ),
        (extract_features dt load (hist ++ [x])).get? 5 = some x
        ∧ (extract_features dt load (hist ++ [x])).get? 7
            = some ((hist.sum + x) / ((hist.length : ℚ) + 1))) := by
  refine ⟨⟨rfl, rfl⟩, fun hist => rfl, fun hist x => ⟨?_, ?_⟩⟩
  · simp [extract_features, List.getLast?_concat]
  · simp [extract_features, List.sum_append, List.length_append]

/-- Counterexample to claim C1 as stated: a `record_actual` call with both
fields present (820, 805) appends the absolute error 15 to the FIFO but
leaves the lifetime prediction counter at 0 instead of incrementing it. -/
theorem record_counter_counterexample :
    (record_actual initialState (some 820) (some 805)).1.prediction_errors = [15]
      ∧ (record_actual initialState (some 820) (some 805)).1.prediction_count
          ≠ initialState.prediction_count + 1 := by
  constructor
  · norm_num [record_actual, initialState, pushError]
  · simp [record_actual, initialState]

/-- Claim C1 as amended: `record_actual` with both fields present appends
|predicted − actual| to the bounded FIFO (it becomes the last entry and the
length is min(previous + 1, 1000)) and leaves the lifetime prediction
counter unchanged; the counter is instead incremented by one by each
`predict` call that returns a successful prediction, and by nothing else. -/
theorem record_appends_error_predict_increments :
    (∀ (s : ServerState) (p a : ℚ),
      (record_actual s (some p) (some a)).1.prediction_count = s.prediction_count
      ∧ (record_actual s (some p) (some a)).1.prediction_errors
          = pushError s.prediction_errors |p - a|
      ∧ (record_actual s (some p) (some a)).1.prediction_errors.getLast? = some |p - a|
      ∧ (record_actual s (some p) (some a)).1.prediction_errors.length
          = min (s.prediction_errors.length + 1) 1000
      ∧ (record_actual s (some p) (some a)).2 = .recorded (round2 |p - a|))
    ∧ ∀ (pt : ParseTime) (s : ServerState) (req : PredictRequest),
        (predict pt s req).1.prediction_count
          = s.prediction_count
            + (match (predict pt s req).2 with
               | .ok _ _ _ _ => 1
               | _ => 0) := by
  constructor
  · intro s p a
    exact ⟨rfl, rfl, pushError_getLast _ _, pushError_length _ _, rfl⟩
  · intro pt s req
    obtain ⟨mo, sco, md, n, es⟩ := s
    obtain ⟨ct, cl, hl⟩ := req
    cases mo with
    | none => cases sco <;> rfl
    | some m =>
      cases sco with
      | none => rfl
      | some sc =>
        cases ct with
        | none => rfl
        | some t =>
          cases cl with
          | none => rfl
          | some c =>
            cases hl with
            | none => rfl
            | some hist =>
              simp only [predict]
              rcases hpt : pt t with e | dt
              · rfl
              · dsimp only
                rcases hsc : sc (extract_features dt c hist) with e | scaled
                · rfl
                · dsimp only
                  rcases hm : m scaled with e | v <;> rfl

/-- Counterexample to claim C9 as stated: a startup load that finds the
model artifact but not the scaler ends in a state whose health report is
"healthy", even though the load failed and the scaler is absent. -/
theorem health_partial_load_counterexample :
    (health_check (load_model ⟨some demoModel, none, none⟩).1).1 = "healthy"
      ∧ (load_model ⟨some demoModel, none, none⟩).1.scaler = none
      ∧ (load_model ⟨some demoModel, none, none⟩).2 = false :=
  ⟨rfl, rfl, rfl⟩

/-- Claim C9 as amended: the health operation reports "healthy" exactly when
the model artifact is loaded, ignoring the scaler; in particular a load
that failed after the model but before the scaler still reports "healthy",
while the load itself reports success only when both artifacts loaded. -/
theorem health_reflects_model_only (d : Disk) :
    (health_check (load_model d).1).1
        = (if d.model_file.isSome then "healthy" else "unhealthy")
      ∧ (load_model d).2 = (d.model_file.isSome && d.scaler_file.isSome) := by
  obtain ⟨mf, sf, mdf⟩ := d
  cases mf <;> cases sf <;> cases mdf <;>
    simp [load_model, health_check, initialState]

/-- Claim C8: on a loaded server, a predict request missing a required
field is answered with a client error naming the first missing field (in
the source's validation order current_time, current_load,
historical_loads), the state is unchanged and no prediction is produced. -/
theorem predict_missing_field_validation (pt : ParseTime) (s : ServerState)
    (m : Regressor) (sc : Scaler) (req : PredictRequest)
    (hm : s.model = some m) (hs : s.scaler = some sc) :
    (req.current_time = none →
      predict pt s req = (s, .clientError "Missing required field: current_time"))
    ∧ (∀ t, req.current_time = some t → req.current_load = none →
      predict pt s req = (s, .clientError "Missing required field: current_load"))
    ∧ (∀ t c, req.current_time = some t → req.current_load = some c →
        req.historical_loads = none →
      predict pt s req = (s, .clientError "Missing required field: historical_loads")) := by
  obtain ⟨mo, sco, md, n, es⟩ := s
  obtain ⟨ct, cl, hl⟩ := req
  have hm' : mo = some m := hm
  have hs' : sco = some sc := hs
  subst hm' hs'
  refine ⟨fun h1 => ?_, fun t h1 h2 => ?_, fun t c h1 h2 h3 => ?_⟩
  · simp only at h1
    subst h1
    rfl
  · simp only at h1 h2
    subst h1 h2
    rfl
  · simp only at h1 h2 h3
    subst h1 h2 h3
    rfl

/-- Witness for C8, at the spec's worked example: a request with
current_time and historical_loads but no current_load is rejected with a
client error naming current_load, the state untouched. -/
theorem predict_missing_field_validation_witness :
    predict failingParse demoState
        ⟨some "2024-01-07T14:30:00", none, some [650, 700, 720, 745]⟩
      = (demoState, .clientError "Missing required field: current_load") :=
  (predict_missing_field_validation failingParse demoState demoModel demoScaler
    _ rfl rfl).2.1 "2024-01-07T14:30:00" rfl rfl

/-- Claim C10: on a loaded server with a well-formed request, if timestamp
parsing / feature extraction, scaling or inference raises, `predict`
answers with the 500-equivalent "Prediction failed" response and the state
— in particular the lifetime prediction counter — is unchanged. -/
theorem predict_pipeline_failure_no_count (pt : ParseTime) (s : ServerState)
    (m : Regressor) (sc : Scaler) (req : PredictRequest)
    (t : String) (c : ℚ) (hist : List ℚ) (e : String)
    (hm : s.model = some m) (hs : s.scaler = some sc)
    (ht : req.current_time = some t) (hc : req.current_load = some c)
    (hh : req.historical_loads = some hist)
    (hfail : inferencePipeline pt sc m t c hist = .error e) :
    predict pt s req = (s, .serverError "Prediction failed" e) := by
  obtain ⟨mo, sco, md, n, es⟩ := s
  obtain ⟨ct, cl, hl⟩ := req
  have hm' : mo = some m := hm
  have hs' : sco = some sc := hs
  have ht' : ct = some t := ht
  have hc' : cl = some c := hc
  have hh' : hl = some hist := hh
  subst hm' hs' ht' hc' hh'
  rcases hpt : pt t with e0 | dt
  · rw [inferencePipeline, hpt, exceptBind_error] at hfail
    obtain rfl : e0 = e := by injection hfail
    simp only [predict, hpt]
  · rw [inferencePipeline, hpt, exceptBind_ok] at hfail
    rcases hsc : sc (extract_features dt c hist) with e1 | scaled
    · rw [hsc, exceptBind_error] at hfail
      obtain rfl : e1 = e := by injection hfail
      simp only [predict, hpt, hsc]
    · rw [hsc, exceptBind_ok] at hfail
      rcases hmv : m scaled with e2 | v
      · rw [hmv] at hfail
        obtain rfl : e2 = e := by injection hfail
        simp only [predict, hpt, hsc, hmv]
      · rw [hmv] at hfail
        exact absurd hfail (by simp)

/-- Witness for C10: with every field present but a timestamp the parser
rejects, `predict` returns the 500 response and leaves the demo state (and
its counter) untouched. -/
theorem predict_pipeline_failure_no_count_witness :
    predict failingParse demoState ⟨some "not-a-time", some 750, some [650, 700]⟩
      = (demoState, .serverError "Prediction failed" "bad timestamp") :=
  predict_pipeline_failure_no_count failingParse demoState demoModel demoScaler
    _ "not-a-time" 750 [650, 700] "bad timestamp" rfl rfl rfl rfl rfl rfl

/-- Folding pushes over a window of at most 1000 entries keeps exactly the
last 1000 of the appended history. -/
theorem foldl_pushError (l : List ℚ) : ∀ es : List ℚ, es.length ≤ 1000 →
    List.foldl pushError es l = (es ++ l).drop (es.length + l.length - 1000) := by
  induction l with
  | nil =>
    intro es h
    simp [Nat.sub_eq_zero_of_le h]
  | cons x l ih =>
    intro es h
    rw [List.foldl_cons]
    have hlen1 : (es ++ [x]).length = es.length + 1 := by simp
    have hcons : (x :: l).length = l.length + 1 := by simp
    have hone : (1 : ℕ) ≤ (es ++ [x]).length := by omega
    by_cases hlen : es.length + 1 ≤ 1000
    · have hstep : pushError es x = es ++ [x] := by
        simp only [pushError]
        rw [if_neg (by omega : ¬ (es ++ [x]).length > 1000)]
      rw [hstep, ih (es ++ [x]) (by omega)]
      have hlists : (es ++ [x]) ++ l = es ++ x :: l := by simp
      have hidx : (es ++ [x]).length + l.length - 1000
          = es.length + (x :: l).length - 1000 := by omega
      rw [hidx, hlists]
    · have hgt : (es ++ [x]).length > 1000 := by omega
      have hk : (es ++ [x]).length - 1000 = 1 := by omega
      have hstep : pushError es x = (es ++ [x]).drop 1 := by
        simp only [pushError]
        rw [if_pos hgt, hk]
      have hlen2 : ((es ++ [x]).drop 1).length ≤ 1000 := by
        rw [List.length_drop]
        omega
      rw [hstep, ih _ hlen2]
      have hlen3 : ((es ++ [x]).drop 1).length = 1000 := by
        rw [List.length_drop]
        omega
      rw [hlen3]
      have hidx1 : 1000 + l.length - 1000 = l.length := by omega
      rw [hidx1]
      have hidx2 : es.length + (x :: l).length - 1000 = 1 + l.length := by omega
      rw [hidx2]
      have hassoc : es ++ x :: l = (es ++ [x]) ++ l := by simp
      rw [hassoc, ← List.drop_drop, List.drop_append_of_le_length hone]

/-- The error window of a fold of `record_actual` calls is the fold of the
pushes of the absolute errors. -/
theorem recordFold_aux (l : List (ℚ × ℚ)) : ∀ s : ServerState,
    (l.foldl (fun s pa => (record_actual s (some pa.1) (some pa.2)).1) s).prediction_errors
      = List.foldl pushError s.prediction_errors (l.map fun pa => |pa.1 - pa.2|) := by
  induction l with
  | nil => intro s; rfl
  | cons pa l ih =>
    intro s
    rw [List.foldl_cons, List.map_cons, List.foldl_cons]
    exact ih _

/-- Claim C5: after any sequence of well-formed record calls the accuracy
window holds at most 1000 entries, namely exactly the most recent absolute
errors (oldest evicted first); after 1001 calls the window is the 1000 most
recent errors and the metrics mean averages exactly those; the mean is 0 on
an empty window, and the metrics operation reports the (2-decimal-rounded)
mean of the current window. -/
theorem accuracy_window_bounded (l : List (ℚ × ℚ)) :
    (recordFold l).prediction_errors.length ≤ 1000
    ∧ (recordFold l).prediction_errors
        = (l.map fun pa => |pa.1 - pa.2|).drop (l.length - 1000)
    ∧ (l.length = 1001 →
        (recordFold l).prediction_errors = (l.map fun pa => |pa.1 - pa.2|).drop 1
        ∧ avg_error (recordFold l).prediction_errors
            = ((l.map fun pa => |pa.1 - pa.2|).drop 1).sum / 1000)
    ∧ avg_error [] = 0
    ∧ (get_metrics (recordFold l)).2
        = round2 (avg_error (recordFold l).prediction_errors) := by
  have h2 : (recordFold l).prediction_errors
      = (l.map fun pa => |pa.1 - pa.2|).drop (l.length - 1000) := by
    rw [recordFold, recordFold_aux l initialState]
    have h := foldl_pushError (l.map fun pa => |pa.1 - pa.2|) [] (by simp)
    simpa using h
  refine ⟨?_, h2, fun h1001 => ?_, rfl, rfl⟩
  · rw [h2]
    simp only [List.length_drop, List.length_map]
    omega
  · have hd : l.length - 1000 = 1 := by omega
    refine ⟨by rw [h2, hd], ?_⟩
    rw [h2, hd]
    have hlen : ((l.map fun pa => |pa.1 - pa.2|).drop 1).length = 1000 := by
      simp [List.length_drop, List.length_map, h1001]
    rw [avg_error, if_neg, hlen]
    · norm_num
    · intro hemp
      rw [hemp] at hlen
      simp at hlen

/-- Witness for C5: 1001 record calls, each with absolute error 1, leave a
window whose mean is exactly 1 (the mean of the 1000 most recent errors). -/
theorem accuracy_window_bounded_witness :
    (List.replicate 1001 ((1 : ℚ), (0 : ℚ))).length = 1001
    ∧ avg_error (recordFold (List.replicate 1001 ((1 : ℚ), (0 : ℚ)))).prediction_errors
        = 1 := by
  refine ⟨by rw [List.length_replicate], ?_⟩
  have h := (accuracy_window_bounded (List.replicate 1001 ((1 : ℚ), 0))).2.2.1
    (by rw [List.length_replicate])
  rw [h.2, List.map_replicate,
    show (1001 : ℕ) = 1000 + 1 from rfl, List.replicate_succ,
    List.drop_one, List.tail_cons, List.sum_replicate]
  norm_num [nsmul_eq_mul]

/-- Claim C7: the training output equals exactly the rows with index ≥ 24
(the head rows lacking full lag history are dropped), each carrying
load_1h_ago = the previous sample, load_24h_ago = the sample 24 steps back
and avg_load_last_7d = the trailing mean over up to 168 prior samples; and
every lag column at row i depends only on samples strictly before i (values
appended after position i never change them). -/
theorem training_lag_features_past_only (loads : List ℚ) :
    trainingTable loads
        = ((List.range loads.length).filter (fun i => decide (24 ≤ i))).map
            (fun i =>
              { idx := i, current_load := loads.getD i 0,
                load_1h_ago := loads.get? (i - 1),
                load_24h_ago := loads.get? (i - 24),
                avg_load_last_7d :=
                  some ((trailingWindow loads i).sum / (trailingWindow loads i).length) })
    ∧ (∀ (ext : List ℚ) (i : ℕ), i ≤ loads.length →
        shift1 (loads ++ ext) i = shift1 loads i
        ∧ shift24 (loads ++ ext) i = shift24 loads i
        ∧ avg7d (loads ++ ext) i = avg7d loads i) := by
  constructor
  · unfold trainingTable lagTable
    rw [List.filter_map]
    rw [List.filter_congr (fun i hi => ?_)]
    · refine List.map_congr_left fun i hi => ?_
      rw [List.mem_filter, List.mem_range] at hi
      obtain ⟨hin, hq⟩ := hi
      have h24 : 24 ≤ i := of_decide_eq_true hq
      have h0 : i ≠ 0 := by omega
      simp [shift1, shift24, avg7d, h0, not_lt.mpr h24]
    · rw [List.mem_range] at hi
      by_cases h24 : 24 ≤ i
      · have h0 : i ≠ 0 := by omega
        have h1 : i - 1 < loads.length := by omega
        have h2 : i - 24 < loads.length := by omega
        simp [shift1, shift24, avg7d, h0, h24, not_lt.mpr h24,
          List.getElem?_eq_getElem h1, List.getElem?_eq_getElem h2]
      · have hlt : i < 24 := by omega
        simp [shift24, hlt, h24]
  · intro ext i hle
    refine ⟨?_, ?_, ?_⟩
    · unfold shift1
      by_cases h0 : i = 0
      · simp [h0]
      · have h1 : i - 1 < loads.length := by omega
        simp [h0, List.getElem?_append_left h1]
    · unfold shift24
      by_cases hlt : i < 24
      · simp [hlt]
      · have h2 : i - 24 < loads.length := by omega
        simp [hlt, List.getElem?_append_left h2]
    · unfold avg7d trailingWindow
      rw [List.take_append_of_le_length hle]

/-- Witness for C7: on a 25-sample column of ones, appending a later sample
5 changes no lag feature at row 25, whose previous-sample and trailing-mean
features both evaluate to 1. -/
theorem training_lag_features_past_only_witness :
    (25 : ℕ) ≤ (List.replicate 25 (1 : ℚ)).length
    ∧ shift1 (List.replicate 25 (1 : ℚ) ++ [5]) 25 = some 1
    ∧ avg7d (List.replicate 25 (1 : ℚ) ++ [5]) 25 = some 1 := by
  have h := (training_lag_features_past_only (List.replicate 25 1)).2 [5] 25
    (by rw [List.length_replicate])
  refine ⟨by rw [List.length_replicate], ?_, ?_⟩
  · rw [h.1]
    simp [shift1]
  · rw [h.2.2]
    norm_num [avg7d, trailingWindow, List.take_replicate, List.sum_replicate, nsmul_eq_mul]

/-- A fixed calendar abstraction, standing in for one wall-clock epoch. -/
def calendar0 : Calendar := ⟨0, fun _ => 1⟩

/-- One fixed pair of random streams: what seeding numpy and the random
module with the same seed (42) yields on every run. -/
def rng0 : Rng := ⟨fun _ => 1/2, fun _ => 1/2⟩

/-- The first row of a nonempty generation loop carries the start
timestamp. -/
theorem genRows_head_timestamp (c : Calendar) (r : Rng) (start : ℤ) (i pyIdx n : ℕ) :
    ((genRows c r start i pyIdx (n + 1)).head?).map GenRow.timestamp
      = some (start + (i : ℤ)) := rfl

/-- Claim C2 (the code-bug evaluation): with identical seeded streams and
identical parameters (months = 6), two runs at wall-clock hours 4320 and
4344 produce different series — `start_date = datetime.now() - 30·months
days`, so already the first timestamps (0 vs 24) differ, and with them the
hour/weekday-keyed draws; the series is not a function of seed and
parameters alone. -/
theorem generate_series_wall_clock_dependent :
    generate_series calendar0 rng0 4320 6 ≠ generate_series calendar0 rng0 4344 6 := by
  intro h
  have e : (720 * 6 : ℕ) = 4319 + 1 := by norm_num
  have h1 : ((generate_series calendar0 rng0 4320 6).head?).map GenRow.timestamp
      = some 0 := by
    rw [generate_series, e, genRows_head_timestamp]
    norm_num
  have h2 : ((generate_series calendar0 rng0 4344 6).head?).map GenRow.timestamp
      = some 24 := by
    rw [generate_series, e, genRows_head_timestamp]
    norm_num
  rw [h, h2] at h1
  exact absurd (Option.some.inj h1) (by norm_num)

end CloudFS
